import Mathlib

/-!
Verification of the coat-recommendation core of the montunual repository.

The repository contains two variants of the weather normalizer
(`getWeatherForecast`): an additive wind/humidity/time-of-day adjustment model
(in the unnamed source file, embedded here in namespace `Part000`) and a
wind-chill / heat-index formula (in `src/app/page.tsx`, embedded in namespace
`Page`).  Both files share an identical coat-decision function
(`shouldTakeCoat`).  Numbers are modelled as rationals and JavaScript
`Math.round` as `fun q => Int.floor (q + 1/2)`, which matches its semantics on
finite values (round half toward positive infinity).  `Math.pow` with a
fractional exponent is not rational-valued, so the `Page` normalizer is
parametrized by an arbitrary function standing for `Math.pow`; the theorems
about it assume only facts true of the real power function.
-/

/-- Raw weather observation: the numeric fields extracted from the API
response, plus the local hour.  Mirrors the tuple
(temperature, precipitation, windSpeed, humidity, currentHour) read in
`getWeatherForecast`. -/
structure RawObservation where
  temperature : ℚ
  precipitation : ℚ
  windSpeed : ℚ
  humidity : ℚ
  hour : ℤ
deriving DecidableEq

/-- The `WeatherData` record returned by `getWeatherForecast` in both files. -/
structure WeatherData where
  temperature : ℤ
  isRainy : Bool
  windSpeed : ℤ
  humidity : ℤ
  hour : ℤ
  perceivedTemp : ℤ
deriving DecidableEq

/-- JavaScript `Math.round`: round half toward positive infinity. -/
def jsRound (q : ℚ) : ℤ := ⌊q + 1/2⌋

/-- `HIGH_WIND_THRESHOLD = 20` (km/h), shared constant of both files. -/
def HIGH_WIND_THRESHOLD : ℚ := 20

/-- `HIGH_HUMIDITY_THRESHOLD = 70` (percent), shared constant of both files. -/
def HIGH_HUMIDITY_THRESHOLD : ℚ := 70

/-- `MORNING_HOUR = 6`, shared constant of both files. -/
def MORNING_HOUR : ℤ := 6

/-- `EVENING_HOUR = 18`, shared constant of both files. -/
def EVENING_HOUR : ℤ := 18

namespace Part000

/-- The running perceived-temperature computation of the unnamed file's
`getWeatherForecast` (wind chill, humidity, time-of-day adjustments), before
the final `Math.round`. -/
def perceivedCalc (temperature windSpeed humidity : ℚ) (hour : ℤ) : ℚ :=
  let p0 := temperature
  let p1 :=
    if windSpeed > HIGH_WIND_THRESHOLD then
      p0 - (windSpeed - HIGH_WIND_THRESHOLD) * 0.1
    else p0
  let p2 :=
    if humidity > HIGH_HUMIDITY_THRESHOLD then
      if temperature > 20 then
        p1 + (humidity - HIGH_HUMIDITY_THRESHOLD) * 0.1
      else
        p1 - (humidity - HIGH_HUMIDITY_THRESHOLD) * 0.05
    else p1
  if hour < MORNING_HOUR ∨ hour > EVENING_HOUR then p2 - 2 else p2

/-- The normalizer of the unnamed file: the pure tail of `getWeatherForecast`
after the extracted numeric fields, building the returned `WeatherData`. -/
def getWeatherForecast (raw : RawObservation) : WeatherData :=
  { temperature := jsRound raw.temperature
    isRainy := decide (raw.precipitation > 0)
    windSpeed := jsRound raw.windSpeed
    humidity := jsRound raw.humidity
    hour := raw.hour
    perceivedTemp :=
      jsRound (perceivedCalc raw.temperature raw.windSpeed raw.humidity raw.hour) }

end Part000

/-- The four internal flags the decision function computes, in source order
(`conditions` object in `shouldTakeCoat`, identical in both files). -/
structure CoatConditions where
  isCold : Bool
  isRainy : Bool
  isWindy : Bool
  isNightTime : Bool
deriving DecidableEq

/-- The `conditions` record built inside `shouldTakeCoat`. -/
def coatConditions (w : WeatherData) : CoatConditions :=
  { isCold := decide (w.perceivedTemp < 15)
    isRainy := w.isRainy
    isWindy := decide ((w.windSpeed : ℚ) > HIGH_WIND_THRESHOLD)
    isNightTime := decide (w.hour < MORNING_HOUR ∨ w.hour > EVENING_HOUR) }

/-- `shouldTakeCoat`, identical in both files: returns `false` when no weather
record is available, otherwise the OR of the four conditions (windy and
night-time each conjoined with a perceived-temperature bound). -/
def shouldTakeCoat (weather : Option WeatherData) : Bool :=
  match weather with
  | none => false
  | some w =>
    let conditions := coatConditions w
    conditions.isCold || conditions.isRainy ||
      (conditions.isWindy && decide (w.perceivedTemp < 20)) ||
      (conditions.isNightTime && decide (w.perceivedTemp < 18))

/-- The internal condition flags as an ordered list (cold, rainy, windy,
night-time), for comparison with the spec's reasons list. -/
def conditionsList (w : WeatherData) : List Bool :=
  [(coatConditions w).isCold, (coatConditions w).isRainy,
   (coatConditions w).isWindy, (coatConditions w).isNightTime]

/-- Modelled from the spec: which of the four coat rules fire, in the order
cold, rainy, windy-and-cool, night-and-cool. -/
def specFiredRules (w : WeatherData) : List Bool :=
  [decide (w.perceivedTemp < 15),
   w.isRainy,
   decide ((w.windSpeed : ℚ) > 20 ∧ w.perceivedTemp < 20),
   decide ((w.hour < 6 ∨ w.hour > 18) ∧ w.perceivedTemp < 18)]

/-- Field extraction with JavaScript nullish-coalescing defaults: each numeric
field falls back to 0 when missing, as in the source's uses of the operator. -/
def extractRaw (t p w h : Option ℚ) (hour : ℤ) : RawObservation :=
  { temperature := t.getD 0
    precipitation := p.getD 0
    windSpeed := w.getD 0
    humidity := h.getD 0
    hour := hour }

/-- Feed a normalized record back into the unnamed file's normalizer,
treating its rounded fields as a fresh raw observation (precipitation
reconstructed from the `isRainy` flag; it does not affect the perceived
temperature). -/
def renormalize (w : WeatherData) : WeatherData :=
  Part000.getWeatherForecast
    { temperature := (w.temperature : ℚ)
      precipitation := if w.isRainy then 1 else 0
      windSpeed := (w.windSpeed : ℚ)
      humidity := (w.humidity : ℚ)
      hour := w.hour }

namespace Page

/-- The perceived-temperature computation of `src/app/page.tsx`:
`Math.round(temperature)` by default, a wind-chill formula when
`temperature < 10`, a heat-index formula when `temperature > 27`.
`pow` stands for JavaScript `Math.pow`, whose fractional powers are not
rational-valued; theorems assume only facts true of the real power
function. -/
def perceivedCalc (pow : ℚ → ℚ → ℚ) (temperature windSpeed humidity : ℚ) : ℤ :=
  let base := jsRound temperature
  let afterWindChill :=
    if temperature < 10 then
      jsRound (13.12 + 0.6215 * temperature - 11.37 * pow windSpeed 0.16
        + 0.3965 * temperature * pow windSpeed 0.16)
    else base
  if temperature > 27 then
    let e := (humidity / 100) * 6.11 * pow 10 ((7.5 * temperature) / (237.7 + temperature))
    jsRound (temperature + 0.5555 * (e - 10))
  else afterWindChill

/-- The normalizer of `src/app/page.tsx`: the pure tail of its
`getWeatherForecast` after the extracted numeric fields. -/
def getWeatherForecast (pow : ℚ → ℚ → ℚ) (raw : RawObservation) : WeatherData :=
  { temperature := jsRound raw.temperature
    isRainy := decide (raw.precipitation > 0)
    windSpeed := jsRound raw.windSpeed
    humidity := jsRound raw.humidity
    hour := raw.hour
    perceivedTemp := perceivedCalc pow raw.temperature raw.windSpeed raw.humidity }

end Page

/-- `Math.round` of an integer is itself. -/
theorem jsRound_intCast (n : ℤ) : jsRound (n : ℚ) = n := by
  rw [jsRound, Int.floor_int_add]
  norm_num

/-- `Math.round` is weakly monotone. -/
theorem jsRound_mono {q r : ℚ} (h : q ≤ r) : jsRound q ≤ jsRound r :=
  Int.floor_le_floor (by linarith)

/-- The running perceived-temperature computation of the additive model,
rewritten as a sum of the three independent adjustments. -/
theorem perceivedCalc_eq_adjSum (t w h : ℚ) (hr : ℤ) :
    Part000.perceivedCalc t w h hr =
      t + (if w > 20 then -((w - 20) * 0.1) else 0)
        + (if h > 70 then
            (if t > 20 then (h - 70) * 0.1 else -((h - 70) * 0.05))
          else 0)
        + (if hr < 6 ∨ hr > 18 then (-2 : ℚ) else 0) := by
  simp only [Part000.perceivedCalc, HIGH_WIND_THRESHOLD,
    HIGH_HUMIDITY_THRESHOLD, MORNING_HOUR, EVENING_HOUR]
  split_ifs <;> ring

/-- Claim C1: the additive normalizer computes perceivedTemperature by
starting from the raw temperature, subtracting (windSpeed - 20) * 0.1 when
windSpeed exceeds 20, then (when humidity exceeds 70) adding
(humidity - 70) * 0.1 if temperature > 20 and otherwise subtracting
(humidity - 70) * 0.05, then subtracting a flat 2 when hour < 6 or hour > 18,
and finally rounding to the nearest integer, with no rounding before the
adjustment math. -/
theorem claim_C1 (raw : RawObservation) :
    (Part000.getWeatherForecast raw).perceivedTemp =
      jsRound (raw.temperature
        + (if raw.windSpeed > 20 then -((raw.windSpeed - 20) * 0.1) else 0)
        + (if raw.humidity > 70 then
            (if raw.temperature > 20 then (raw.humidity - 70) * 0.1
             else -((raw.humidity - 70) * 0.05))
          else 0)
        + (if raw.hour < 6 ∨ raw.hour > 18 then (-2 : ℚ) else 0)) := by
  simp only [Part000.getWeatherForecast, Part000.perceivedCalc,
    HIGH_WIND_THRESHOLD, HIGH_HUMIDITY_THRESHOLD, MORNING_HOUR, EVENING_HOUR]
  congr 1
  split_ifs <;> ring

/-- Claim C2: the decision evaluator returns takeCoat = true iff at least one
of the four rules holds: cold (perceivedTemperature < 15), rainy,
windy-and-cool (windSpeed > 20 and perceivedTemperature < 20), or
night-and-cool (hour < 6 or hour > 18, and perceivedTemperature < 18). -/
theorem claim_C2 (w : WeatherData) :
    shouldTakeCoat (some w) = true ↔
      (w.perceivedTemp < 15 ∨ w.isRainy = true ∨
        (w.windSpeed > 20 ∧ w.perceivedTemp < 20) ∨
        ((w.hour < 6 ∨ w.hour > 18) ∧ w.perceivedTemp < 18)) := by
  have hcast : ((w.windSpeed : ℚ) > 20) ↔ w.windSpeed > 20 := by
    exact_mod_cast Iff.rfl
  simp only [shouldTakeCoat, coatConditions, HIGH_WIND_THRESHOLD, MORNING_HOUR,
    EVENING_HOUR, Bool.or_eq_true, Bool.and_eq_true, decide_eq_true_eq, hcast]
  tauto

/-- Claim C3: on temperature 10, precipitation 0, windSpeed 30, humidity 50,
hour 14, the additive normalizer yields perceivedTemperature 9 and the
decision evaluator returns takeCoat = true with the cold rule firing. -/
theorem claim_C3 :
    (Part000.getWeatherForecast ⟨10, 0, 30, 50, 14⟩).perceivedTemp = 9 ∧
    shouldTakeCoat (some (Part000.getWeatherForecast ⟨10, 0, 30, 50, 14⟩)) = true ∧
    (Part000.getWeatherForecast ⟨10, 0, 30, 50, 14⟩).perceivedTemp < 15 := by
  norm_num [Part000.getWeatherForecast, Part000.perceivedCalc, jsRound,
    shouldTakeCoat, coatConditions,
    HIGH_WIND_THRESHOLD, HIGH_HUMIDITY_THRESHOLD, MORNING_HOUR, EVENING_HOUR]

/-- Claim C4 counterexample: re-normalizing the normalized record of the raw
observation (temperature 20.4, precipitation 0, wind 0, humidity 80, hour 12)
changes perceivedTemperature from 21 to 20: rounding 20.4 down to 20 flips the
humidity branch from the hot rule (add) to the cold rule (subtract). -/
theorem claim_C4_counterexample :
    (renormalize (Part000.getWeatherForecast ⟨20.4, 0, 0, 80, 12⟩)).perceivedTemp ≠
      (Part000.getWeatherForecast ⟨20.4, 0, 0, 80, 12⟩).perceivedTemp := by
  norm_num [renormalize, Part000.getWeatherForecast, Part000.perceivedCalc,
    jsRound, HIGH_WIND_THRESHOLD, HIGH_HUMIDITY_THRESHOLD, MORNING_HOUR,
    EVENING_HOUR, Int.floor_eq_iff]

/-- Claim C4 amended: re-normalization preserves perceivedTemperature when the
raw observation's temperature, wind speed, and humidity are already whole
numbers (so rounding does not move them); in general it may change it. -/
theorem claim_C4_amended (t w h : ℤ) (p : ℚ) (hr : ℤ) :
    (renormalize
        (Part000.getWeatherForecast ⟨(t : ℚ), p, (w : ℚ), (h : ℚ), hr⟩)).perceivedTemp =
      (Part000.getWeatherForecast ⟨(t : ℚ), p, (w : ℚ), (h : ℚ), hr⟩).perceivedTemp := by
  simp only [renormalize, Part000.getWeatherForecast, jsRound_intCast]

/-- Claim C5 counterexample: at temperature 10, humidity 50, hour 12, raising
the wind speed from 21 to 22 (both above 20) leaves the rounded
perceivedTemperature unchanged at 10 (9.9 and 9.8 both round to 10), so the
normalizer's perceived temperature is not strictly decreasing in wind speed. -/
theorem claim_C5_counterexample :
    (20 : ℚ) < 21 ∧ (21 : ℚ) < 22 ∧
    ¬ ((Part000.getWeatherForecast ⟨10, 0, 22, 50, 12⟩).perceivedTemp <
        (Part000.getWeatherForecast ⟨10, 0, 21, 50, 12⟩).perceivedTemp) := by
  norm_num [Part000.getWeatherForecast, Part000.perceivedCalc, jsRound,
    HIGH_WIND_THRESHOLD, HIGH_HUMIDITY_THRESHOLD, MORNING_HOUR, EVENING_HOUR,
    Int.floor_eq_iff]

/-- Claim C5 amended: the strict monotonicity holds for the unrounded running
perceived temperature (before the final rounding); the rounded
perceivedTemperature is correspondingly weakly monotone.  Holding other fields
fixed: wind speeds above 20 strictly decrease the unrounded value; humidities
above 70 strictly increase it at temperature > 20 and strictly decrease it at
temperature ≤ 20. -/
theorem claim_C5_amended (t h : ℚ) (hr : ℤ) (w w1 w2 h1 h2 : ℚ) :
    (20 < w1 → w1 < w2 →
      Part000.perceivedCalc t w2 h hr < Part000.perceivedCalc t w1 h hr ∧
      (Part000.getWeatherForecast ⟨t, 0, w2, h, hr⟩).perceivedTemp ≤
        (Part000.getWeatherForecast ⟨t, 0, w1, h, hr⟩).perceivedTemp) ∧
    (70 < h1 → h1 < h2 → 20 < t →
      Part000.perceivedCalc t w h1 hr < Part000.perceivedCalc t w h2 hr ∧
      (Part000.getWeatherForecast ⟨t, 0, w, h1, hr⟩).perceivedTemp ≤
        (Part000.getWeatherForecast ⟨t, 0, w, h2, hr⟩).perceivedTemp) ∧
    (70 < h1 → h1 < h2 → t ≤ 20 →
      Part000.perceivedCalc t w h2 hr < Part000.perceivedCalc t w h1 hr ∧
      (Part000.getWeatherForecast ⟨t, 0, w, h2, hr⟩).perceivedTemp ≤
        (Part000.getWeatherForecast ⟨t, 0, w, h1, hr⟩).perceivedTemp) := by
  refine ⟨fun hw1 hw12 => ?_, fun hh1 hh12 ht => ?_, fun hh1 hh12 ht => ?_⟩ <;>
    (constructor
     · rw [perceivedCalc_eq_adjSum, perceivedCalc_eq_adjSum]
       split_ifs <;> linarith
     · apply jsRound_mono
       rw [perceivedCalc_eq_adjSum, perceivedCalc_eq_adjSum]
       split_ifs <;> linarith)

/-- Claim C5 amended witness: concrete instances of the three monotonicity
parts. -/
theorem claim_C5_amended_witness :
    Part000.perceivedCalc 25 22 50 12 < Part000.perceivedCalc 25 21 50 12 ∧
    Part000.perceivedCalc 25 5 71 12 < Part000.perceivedCalc 25 5 80 12 ∧
    Part000.perceivedCalc 10 5 80 12 < Part000.perceivedCalc 10 5 71 12 :=
  ⟨((claim_C5_amended 25 50 12 5 21 22 71 80).1 (by norm_num) (by norm_num)).1,
   ((claim_C5_amended 25 50 12 5 21 22 71 80).2.1 (by norm_num) (by norm_num)
     (by norm_num)).1,
   ((claim_C5_amended 10 50 12 5 21 22 71 80).2.2 (by norm_num) (by norm_num)
     (by norm_num)).1⟩

/-- Claim C6: the additive normalizer is deterministic (equal inputs give
equal outputs; as a pure total function it raises no exception on any input,
including negative wind speed and out-of-range humidity), and the
nullish-coalescing extraction treats each missing numeric field as 0. -/
theorem claim_C6 (t p w h : Option ℚ) (hr : ℤ) (r1 r2 : RawObservation)
    (hEq : r1 = r2) :
    Part000.getWeatherForecast r1 = Part000.getWeatherForecast r2 ∧
    extractRaw t p w h hr =
      extractRaw (some (t.getD 0)) (some (p.getD 0)) (some (w.getD 0))
        (some (h.getD 0)) hr := by
  subst hEq
  refine ⟨rfl, ?_⟩
  cases t <;> cases p <;> cases w <;> cases h <;> rfl

/-- Claim C6 witness: a concrete input with negative wind speed, out-of-range
humidity and a missing precipitation field. -/
theorem claim_C6_witness :
    Part000.getWeatherForecast ⟨5, 0, -10, 150, 3⟩ =
      Part000.getWeatherForecast ⟨5, 0, -10, 150, 3⟩ ∧
    extractRaw (some 5) none (some (-10)) (some 150) 3 =
      extractRaw (some 5) (some 0) (some (-10)) (some 150) 3 :=
  claim_C6 (some 5) none (some (-10)) (some 150) 3 ⟨5, 0, -10, 150, 3⟩
    ⟨5, 0, -10, 150, 3⟩ rfl

/-- Claim C7 counterexample: at the record (temperature 25, not rainy,
windSpeed 30, humidity 50, hour 12, perceivedTemp 25) the evaluator's internal
ordered flags are [false, false, true, false] (its windy flag checks only
windSpeed > 20), while the fired rules of the spec are all false
(windy-and-cool needs perceivedTemperature < 20); the evaluator also returns
only the boolean, which is false here. -/
theorem claim_C7_counterexample :
    conditionsList ⟨25, false, 30, 50, 12, 25⟩ ≠
      specFiredRules ⟨25, false, 30, 50, 12, 25⟩ ∧
    shouldTakeCoat (some ⟨25, false, 30, 50, 12, 25⟩) = false := by
  norm_num [conditionsList, coatConditions, specFiredRules, shouldTakeCoat,
    HIGH_WIND_THRESHOLD, MORNING_HOUR, EVENING_HOUR]

/-- Claim C7 amended: the evaluator returns only the boolean takeCoat, which
equals the OR of the four spec rules (equivalently: some entry of the spec's
fired-rules list, ordered cold, rainy, windy-and-cool, night-and-cool, is
true); its internal ordered flags agree with the fired rules on the first two
entries (cold, rainy), but its windy and night-time flags omit the
perceived-temperature conjuncts, so no returned list records exactly which
rules fired. -/
theorem claim_C7_amended (w : WeatherData) :
    shouldTakeCoat (some w) = (specFiredRules w).any id ∧
    (conditionsList w).take 2 = (specFiredRules w).take 2 ∧
    (coatConditions w).isWindy = decide (w.windSpeed > 20) ∧
    (coatConditions w).isNightTime = decide (w.hour < 6 ∨ w.hour > 18) := by
  have hcast : ((w.windSpeed : ℚ) > 20) ↔ w.windSpeed > 20 := by
    exact_mod_cast Iff.rfl
  refine ⟨?_, by simp [conditionsList, coatConditions, specFiredRules], ?_, ?_⟩
  · simp only [shouldTakeCoat, coatConditions, specFiredRules, List.any,
      HIGH_WIND_THRESHOLD, MORNING_HOUR, EVENING_HOUR, id, Bool.or_false]
    cases hra : w.isRainy <;>
      rcases Decidable.em (w.perceivedTemp < 15) with hc | hc <;>
      rcases Decidable.em (w.windSpeed > 20) with hw | hw <;>
      rcases Decidable.em (w.perceivedTemp < 20) with h20 | h20 <;>
      rcases Decidable.em (w.hour < 6 ∨ w.hour > 18) with hn | hn <;>
      rcases Decidable.em (w.perceivedTemp < 18) with h18 | h18 <;>
      simp [hc, hw, h20, hn, h18, hcast]
  · simp [coatConditions, HIGH_WIND_THRESHOLD, decide_eq_decide, hcast]
  · simp [coatConditions, MORNING_HOUR, EVENING_HOUR]

/-- Claim C8: the two normalizers are not numerically reconcilable: on the raw
observation (temperature 0, precipitation 0, wind 0, humidity 0, hour 12) the
page.tsx wind-chill formula yields perceivedTemp 13 while the additive model
yields 0, for any power function with pow 0 0.16 = 0 (as JavaScript's
Math.pow has). -/
theorem claim_C8 (pow : ℚ → ℚ → ℚ) (hpow : pow 0 0.16 = 0) :
    (Page.getWeatherForecast pow ⟨0, 0, 0, 0, 12⟩).perceivedTemp ≠
      (Part000.getWeatherForecast ⟨0, 0, 0, 0, 12⟩).perceivedTemp := by
  simp only [Page.getWeatherForecast, Page.perceivedCalc,
    Part000.getWeatherForecast, Part000.perceivedCalc, hpow]
  norm_num [jsRound, HIGH_WIND_THRESHOLD, HIGH_HUMIDITY_THRESHOLD,
    MORNING_HOUR, EVENING_HOUR, Int.floor_eq_iff]

/-- Claim C8 witness: instantiated with the constant-zero power function. -/
theorem claim_C8_witness :
    (Page.getWeatherForecast (fun _ _ => 0) ⟨0, 0, 0, 0, 12⟩).perceivedTemp ≠
      (Part000.getWeatherForecast ⟨0, 0, 0, 0, 12⟩).perceivedTemp :=
  claim_C8 (fun _ _ => 0) rfl

/-- Claim C9: in the page.tsx normalizer, whenever 10 ≤ temperature ≤ 27,
perceivedTemp is exactly Math.round(temperature), whatever the wind speed,
humidity, hour, or power function. -/
theorem claim_C9 (pow : ℚ → ℚ → ℚ) (raw : RawObservation)
    (h1 : 10 ≤ raw.temperature) (h2 : raw.temperature ≤ 27) :
    (Page.getWeatherForecast pow raw).perceivedTemp = jsRound raw.temperature := by
  simp only [Page.getWeatherForecast, Page.perceivedCalc]
  rw [if_neg (by linarith), if_neg (by linarith)]

/-- Claim C9 witness: a concrete in-range temperature with extreme wind and
humidity. -/
theorem claim_C9_witness :
    (Page.getWeatherForecast (fun _ _ => 0) ⟨15, 0, 99, 99, 3⟩).perceivedTemp =
      jsRound 15 :=
  claim_C9 (fun _ _ => 0) ⟨15, 0, 99, 99, 3⟩ (by norm_num) (by norm_num)

/-- Claim C10: when no weather record is available, shouldTakeCoat returns
false rather than failing or recommending a coat. -/
theorem claim_C10 : shouldTakeCoat none = false := rfl
